import Mathlib

/-!
Shallow embedding of the paper-lifecycle and scoring core of the
`ai-training` repository (Python sources under `src/`), together with
theorems settling the specification claims.

Modelling conventions:
* Python dicts that always carry a fixed set of keys become Lean
  structures; `dict.get(key, default)` on an always-present key becomes a
  field access.
* Python `float` scores (multiples of 0.5 only: 0.0, 5.0, 10.0 and their
  sums) are modelled as `ℚ`, which is exact for these values.
* Python sets of strings become `Finset String`; `sorted(...)` becomes
  `Finset.sort (· ≤ ·)` (both orders are code-point lexicographic).
* The Redis tier is an association list with newest-first insertion
  (`cacheSet` conses, `List.lookup` returns the newest binding), which is
  observationally the overwrite semantics of `SET`.
* The relational tier is a list of rows in insertion order; SQLAlchemy
  `.first()` becomes `List.find?`.
* Fallible paths (Python `raise`) return `Except String`.
-/

namespace AiTraining

/-! ### Python string primitives

`str.strip()`, `str.split(',')` and `sorted` on strings are modelled
directly over character lists so that every definition evaluates inside
the kernel. -/

/-- Python `str.strip()` with no argument: remove leading and trailing
whitespace. -/
def py_strip (s : String) : String :=
  ⟨((s.data.dropWhile Char.isWhitespace).reverse.dropWhile Char.isWhitespace).reverse⟩

/-- Split a character list at every occurrence of the separator; like
Python `split`, the result always has one piece more than there are
separators (so the empty input gives one empty piece). -/
def split_char_list (sep : Char) : List Char → List (List Char)
  | [] => [[]]
  | c :: cs =>
      match split_char_list sep cs with
      | [] => if c = sep then [[], []] else [[c]]
      | h :: t => if c = sep then [] :: h :: t else (c :: h) :: t

/-- Python `s.split(',')`. -/
def py_split_comma (s : String) : List String :=
  (split_char_list (Char.ofNat 44) s.data).map (fun cs => ⟨cs⟩)

/-- Code-point lexicographic `≤` on character lists, the order Python uses
to compare strings. -/
def char_list_leb : List Char → List Char → Bool
  | [], _ => true
  | _ :: _, [] => false
  | a :: as, b :: bs =>
      if a.toNat < b.toNat then true
      else if b.toNat < a.toNat then false
      else char_list_leb as bs

/-- Insert a string into an ascending list, keeping it ascending. -/
def insert_sorted (x : String) : List String → List String
  | [] => [x]
  | y :: ys => if char_list_leb x.data y.data then x :: y :: ys else y :: insert_sorted x ys

/-- Python `sorted` on a list of strings (insertion sort; agrees with any
stable sort on the ascending code-point order). -/
def py_sorted (l : List String) : List String := l.foldr insert_sorted []

/-- An option of a question, as stored in the paper JSON
(`src/service/generate_paper_service.py` output shape, consumed by
`calculate_question_score`). -/
structure QOption where
  id : String
  text : String
  is_correct : Bool
  explanation : String
  deriving Repr, DecidableEq

/-- The dynamic shape of a user answer value: a JSON string, a JSON list of
strings, or any other JSON value (carried as its Python `str()` rendering,
which is all `calculate_question_score` can observe of it). -/
inductive UAVal where
  | str (s : String)
  | list (l : List String)
  | other (s : String)
  deriving Repr, DecidableEq

/-- A correct-answer value: the single-choice branch returns a string, the
multiple-choice branch returns a list (the Python value is dynamically
typed). -/
inductive CorrectAns where
  | s (v : String)
  | l (v : List String)
  deriving Repr, DecidableEq

/-- One analysis task as built by `build_analysis_tasks_from_cache`
(`src/utils/paper_utils.py`). -/
structure AnalysisTask where
  question_id : String
  question_type : String
  question_text : String
  user_answer : UAVal
  options : List QOption
  deriving Repr, DecidableEq

/-- Result record of `calculate_question_score`
(`src/service/analyze_paper_service.py` lines 42-174). -/
structure ScoreInfo where
  is_correct : Bool
  score : ℚ
  correct_answer : CorrectAns
  explanation : String
  chinese_type : String
  deriving Repr, DecidableEq

/-- `type_mapping.get(question_type, question_type)`: the localized display
label of a question type (`analyze_paper_service.py` lines 60-73). -/
def type_mapping_get (q : String) : String :=
  if q = "single_choice" then "单选题"
  else if q = "multiple_choice" then "多选题"
  else if q = "true_false" then "判断题"
  else if q = "fill_blank" then "填空题"
  else if q = "单选题" then "单选题"
  else if q = "多选题" then "多选题"
  else if q = "判断题" then "判断题"
  else if q = "填空题" then "填空题"
  else q

/-- Per-question base score (`base_score = 10.0`). -/
def base_score : ℚ := 10

/-- Single-choice normalization (`analyze_paper_service.py` lines 80-84):
a list answer is reduced to its first element (`''` when empty), any other
shape is rendered with `str(...)` and stripped. -/
def single_user_answer : UAVal → String
  | .list l => l.headD ""
  | .str s => py_strip s
  | .other s => py_strip s

/-- `[opt.get('id','') for opt in options if opt.get('is_correct', False)]` -/
def correct_option_ids (options : List QOption) : List String :=
  (options.filter (fun o => o.is_correct)).map (fun o => o.id)

/-- Multiple-choice normalization (`analyze_paper_service.py` lines
113-122): a string is stripped and comma-split into a set, a list is used
as a set as-is, anything else becomes the empty set. -/
def multi_user_options : UAVal → Finset String
  | .str s => (py_split_comma (py_strip s)).toFinset
  | .list l => l.toFinset
  | .other _ => ∅

/-- `{opt.get('id','') for opt in options if opt.get('is_correct', False)}` -/
def multi_correct_options (options : List QOption) : Finset String :=
  (correct_option_ids options).toFinset

/-- `calculate_question_score` (`analyze_paper_service.py` lines 42-174):
deterministic per-question scoring. -/
def calculate_question_score (task : AnalysisTask) : ScoreInfo :=
  let question_type := task.question_type
  let user_answer := task.user_answer
  let options := task.options
  let chinese_type := type_mapping_get question_type
  let is_single_choice := question_type = "single_choice" ∨ question_type = "单选题"
  let is_multiple_choice := question_type = "multiple_choice" ∨ question_type = "多选题"
  if is_single_choice then
    let ua := single_user_answer user_answer
    let correct_options := correct_option_ids options
    let correct_answer := correct_options.headD ""
    match options.find? (fun o => o.id == ua) with
    | some opt =>
        { is_correct := opt.is_correct
          score := if opt.is_correct then base_score else 0
          correct_answer := .s correct_answer
          explanation := opt.explanation
          chinese_type := chinese_type }
    | none =>
        { is_correct := false
          score := 0
          correct_answer := .s correct_answer
          explanation := "答案格式错误"
          chinese_type := chinese_type }
  else if is_multiple_choice then
    let user_options := multi_user_options user_answer
    let correct_options := multi_correct_options options
    let correct_answer := py_sorted (correct_option_ids options).dedup
    let has_wrong_answer := (user_options \ correct_options).card > 0
    let all_correct_answered := (correct_options \ user_options).card = 0
    let correct_answered_count := (user_options ∩ correct_options).card
    let result :=
      if has_wrong_answer then (false, (0 : ℚ))
      else if all_correct_answered ∧ user_options.card = correct_options.card then
        (true, base_score)
      else if correct_answered_count > 0 then (true, (5 : ℚ))
      else (false, (0 : ℚ))
    { is_correct := result.1
      score := result.2
      correct_answer := .l correct_answer
      explanation := "正确答案包含选项：" ++ String.intercalate ", " correct_answer
      chinese_type := chinese_type }
  else
    let correct_options := correct_option_ids options
    let correct_answer := String.join correct_options
    { is_correct := false
      score := 0
      correct_answer := .s correct_answer
      explanation := "未知题目类型"
      chinese_type := chinese_type }

/-- One item of the LLM reply's `results` array
(`process_ai_analysis_results`, lines 189-195). -/
structure AiItem where
  question_id : String
  explanation : String
  deriving Repr, DecidableEq

/-- Parsed LLM reply: `ai_results.get('results', [])`. -/
structure AiResults where
  results : List AiItem
  deriving Repr, DecidableEq

/-- One element of the final `analysis_results` list (lines 215-224). -/
structure QuestionResult where
  question_id : String
  question_type : String
  question_text : String
  user_answer : UAVal
  is_correct : Bool
  score : ℚ
  correct_answer : CorrectAns
  explanation : String
  deriving Repr, DecidableEq

/-- Return shape of `process_ai_analysis_results` (lines 247-253). -/
structure AnalysisOutcome where
  analysis_results : List QuestionResult
  total_score : ℚ
  correct_count : Nat
  total_count : Nat
  overall_feedback : String
  deriving Repr, DecidableEq

/-- `explanation_map` lookup: the map is filled in list order, so a later
item with the same `question_id` overwrites an earlier one; absence falls
back to the placeholder `'未能生成个性化反馈'` (lines 191-195, 212). -/
def explanation_map_get (items : List AiItem) (qid : String) : String :=
  match (items.filter (fun i => i.question_id == qid)).getLast? with
  | some i => i.explanation
  | none => "未能生成个性化反馈"

/-- The aggregate feedback band selection of `process_ai_analysis_results`
(lines 236-245), factored out of the loop body: fixed absolute thresholds
over the raw score sum, tested in descending order. -/
def overall_feedback_of (total_score : ℚ) : String :=
  if total_score ≥ 90 then "专业功底扎实,细节把控近乎完美!"
  else if total_score ≥ 80 then "专业基础良好,对知识点掌握较为全面!"
  else if total_score ≥ 70 then "基本掌握相关知识,仍有提升空间!"
  else if total_score ≥ 60 then "部分知识点掌握,需要加强学习!"
  else "需要系统复习,建议重点关注错误题目!"

/-- `process_ai_analysis_results` (lines 177-253).  The Python loop
accumulates `final_results`, `total_score` and `correct_count` over
`analysis_tasks`; the accumulations are rendered as `map`/`sum`/`filter`. -/
def process_ai_analysis_results (ai_results : AiResults) (analysis_tasks : List AnalysisTask) :
    AnalysisOutcome :=
  let final_results := analysis_tasks.map (fun task =>
    let score_info := calculate_question_score task
    { question_id := task.question_id
      question_type := score_info.chinese_type
      question_text := task.question_text
      user_answer := task.user_answer
      is_correct := score_info.is_correct
      score := score_info.score
      correct_answer := score_info.correct_answer
      explanation := explanation_map_get ai_results.results task.question_id })
  let total_score := (analysis_tasks.map (fun t => (calculate_question_score t).score)).sum
  let correct_count := (analysis_tasks.filter (fun t => (calculate_question_score t).is_correct)).length
  { analysis_results := final_results
    total_score := total_score
    correct_count := correct_count
    total_count := analysis_tasks.length
    overall_feedback := overall_feedback_of total_score }

/-- `analyze_paper_answers` (lines 256-323), with the external LLM call
abstracted as its outcome `ai_out` (`some r` = the call returned text that
parsed to `r`; `none` = the call raised or its output was unusable).  On
success the function returns `process_ai_analysis_results`; on failure the
`except` block only logs — the comment `如果AI分析失败，使用本地分析作为备选方案`
is followed by no code — so the function implicitly returns Python `None`,
modelled as `Option.none`. -/
def analyze_paper_answers (ai_out : Option AiResults) (analysis_tasks : List AnalysisTask) :
    Option AnalysisOutcome :=
  ai_out.map (fun ai_results => process_ai_analysis_results ai_results analysis_tasks)

/-! ## Access-code utilities (`src/utils/access_code_util.py`) -/

/-- The restricted generation alphabet of `generate_access_code`
(line 34): uppercase letters and digits excluding `0`, `O`, `I`, `1`. -/
def access_code_chars : List Char := "ABCDEFGHJKLMNPQRSTUVWXYZ23456789".toList

/-- `validate_access_code` (lines 69-88): non-empty, length 4-10, every
character in `string.ascii_uppercase + string.digits`. -/
def validate_access_code (access_code : String) : Bool :=
  if access_code = "" then false
  else if access_code.length < 4 ∨ access_code.length > 10 then false
  else access_code.toList.all (fun c => c.isUpper || c.isDigit)

/-! ## Paper content, answer hiding (`src/utils/paper_utils.py`) -/

/-- A question as stored in the paper JSON. -/
structure Question where
  question_id : String
  question_type : String
  question_text : String
  options : List QOption
  deriving Repr, DecidableEq

/-- `QuestionOptionForFrontend` (`src/schemas/paper_schemas.py`): only
`id` and `text`. -/
structure QuestionOptionForFrontend where
  id : String
  text : String
  deriving Repr, DecidableEq

/-- `QuestionForFrontend`: a question with answer-free options. -/
structure QuestionForFrontend where
  question_id : String
  question_type : String
  question_text : String
  options : List QuestionOptionForFrontend
  deriving Repr, DecidableEq

/-- `hide_correct_answers` (`paper_utils.py` lines 10-41): rebuild every
option keeping only `id` and `text`. -/
def hide_correct_answers (questions : List Question) : List QuestionForFrontend :=
  questions.map (fun question =>
    { question_id := question.question_id
      question_type := question.question_type
      question_text := question.question_text
      options := question.options.map (fun option =>
        { id := option.id, text := option.text }) })

/-- One submitted answer item `{question_id, user_answer}`. -/
structure AnswerItem where
  question_id : String
  user_answer : UAVal
  deriving Repr, DecidableEq

/-- `question_map` lookup in `build_analysis_tasks_from_cache`
(`paper_utils.py` lines 60-64): the dict is filled in list order, so the
last question with a given id wins. -/
def question_map_get (questions : List Question) (qid : String) : Option Question :=
  (questions.filter (fun q => q.question_id == qid)).getLast?

/-- `build_analysis_tasks_from_cache` (`paper_utils.py` lines 44-86):
one task per submitted answer, `ValueError` when a submitted
`question_id` is not in the paper. -/
def build_analysis_tasks_from_cache (cached_questions : List Question)
    (user_answers : List AnswerItem) : Except String (List AnalysisTask) :=
  user_answers.mapM (fun user_answer =>
    match question_map_get cached_questions user_answer.question_id with
    | none => .error ("题目ID " ++ user_answer.question_id ++ " 在缓存中不存在")
    | some cached_question => .ok
        { question_id := user_answer.question_id
          question_type := cached_question.question_type
          question_text := cached_question.question_text
          user_answer := user_answer.user_answer
          options := cached_question.options })

/-! ## Two-tier state (`src/dao/paper_dao.py`, `src/utils/redis_util.py`,
`src/model/paper.py`) -/

/-- A row of the `papers` table (`src/model/paper.py`).  The `questions`
Text column holds JSON; it is modelled already parsed (an empty or
unparsable column and a `[]` column are observationally identical on
every path that reads it, all of which reject empty question lists). -/
structure DbPaper where
  paper_id : String
  questions : List Question
  total_count : Nat
  created_at : String
  status : String
  access_code : String
  user_id : Option String
  deriving Repr, DecidableEq

/-- The dict cached by `save_shared_paper` (`shared_paper_service.py`
lines 87-96 and 159-168). -/
structure CachePaper where
  paper_id : String
  questions : List Question
  total_count : Nat
  access_code : String
  user_id : Option String
  created_at : String
  documents : List String
  document_count : Nat
  deriving Repr, DecidableEq

/-- The `answer_data` dict built by `submit_answers` (lines 253-262):
always carries these eight keys. -/
structure AnswerData where
  paper_id : String
  user_id : String
  answers : List AnswerItem
  score : ℚ
  correct_count : Nat
  total_count : Nat
  analysis_results : List QuestionResult
  overall_feedback : String
  deriving Repr, DecidableEq

/-- A row of the `user_answers` table (`src/model/paper.py`).  Nullable
columns are `Option`; `submitted_at` is set by the server default at
insertion time and never written by the application. -/
structure DbUserAnswer where
  id : Nat
  paper_id : String
  user_id : String
  answers : Option (List AnswerItem)
  score : Option ℚ
  correct_count : Option Nat
  total_count : Option Nat
  analysis_results : Option (List QuestionResult)
  overall_feedback : Option String
  submitted_at : String
  deriving Repr, DecidableEq

/-- The dict cached by `save_user_answer` from `submit_answers` (lines
275-278): the `answer_data` plus a fresh `submitted_at`. -/
structure CacheAnswer where
  data : AnswerData
  submitted_at : String
  deriving Repr, DecidableEq

/-- Redis `SET key value`: the newest binding shadows older ones under
`List.lookup`. -/
def cacheSet {α : Type} (l : List (String × α)) (k : String) (v : α) :
    List (String × α) :=
  (k, v) :: l

/-- The two-tier state: the three Redis key families touched by
`SharedPaperService` and the two relational tables. -/
structure St where
  cachePapers : List (String × CachePaper)
  cacheCodes : List (String × String)
  cacheAnswers : List (String × CacheAnswer)
  dbPapers : List DbPaper
  dbAnswers : List DbUserAnswer
  deriving Repr, DecidableEq

/-- Cache key of `save_user_answer` / `get_user_answer` in
`redis_util.py`: `USER_ANSWER:{paper_id}:{user_id}`. -/
def answer_cache_key (paper_id user_id : String) : String :=
  "USER_ANSWER:" ++ paper_id ++ ":" ++ user_id

namespace PaperDao

/-- `PaperDao.get_paper_by_id` (`paper_dao.py` lines 51-61): first row
with the given primary key. -/
def get_paper_by_id (rows : List DbPaper) (paper_id : String) : Option DbPaper :=
  rows.find? (fun p => p.paper_id == paper_id)

/-- `PaperDao.get_paper_by_access_code` (lines 63-73). -/
def get_paper_by_access_code (rows : List DbPaper) (access_code : String) : Option DbPaper :=
  rows.find? (fun p => p.access_code == access_code)

/-- `PaperDao.get_paper_questions` (lines 75-92): the parsed `questions`
column of the paper, `none` when the paper is absent. -/
def get_paper_questions (rows : List DbPaper) (paper_id : String) :
    Option (List Question) :=
  (get_paper_by_id rows paper_id).map (fun p => p.questions)

end PaperDao

namespace UserAnswerDao

/-- `UserAnswerDao.get_user_answer` (`paper_dao.py` lines 186-199): first
row with the given `(paper_id, user_id)`. -/
def get_user_answer (rows : List DbUserAnswer) (paper_id user_id : String) :
    Option DbUserAnswer :=
  rows.find? (fun r => r.paper_id == paper_id && r.user_id == user_id)

/-- `UserAnswerDao.create_user_answer` (lines 152-184): append a new row;
`answers`/`analysis_results` become NULL when falsy; `submitted_at` takes
the server default `db_now`. -/
def create_user_answer (rows : List DbUserAnswer) (db_now : String)
    (answer_data : AnswerData) : List DbUserAnswer :=
  rows ++ [{ id := rows.length + 1
             paper_id := answer_data.paper_id
             user_id := answer_data.user_id
             answers := if answer_data.answers.isEmpty then none else some answer_data.answers
             score := some answer_data.score
             correct_count := some answer_data.correct_count
             total_count := some answer_data.total_count
             analysis_results := if answer_data.analysis_results.isEmpty then none
               else some answer_data.analysis_results
             overall_feedback := some answer_data.overall_feedback
             submitted_at := db_now }]

/-- The column writes of `UserAnswerDao.update_user_answer` (lines
216-227).  The caller (`submit_answers`) always supplies all six keys, so
every `if key in answer_data` guard is taken; `id`, `paper_id`,
`user_id` and `submitted_at` are not assigned. -/
def apply_update (r : DbUserAnswer) (answer_data : AnswerData) : DbUserAnswer :=
  { r with
    answers := some answer_data.answers
    score := some answer_data.score
    correct_count := some answer_data.correct_count
    total_count := some answer_data.total_count
    analysis_results := some answer_data.analysis_results
    overall_feedback := some answer_data.overall_feedback }

/-- `UserAnswerDao.update_user_answer` (lines 201-236): mutate the first
row matching the key in place; no-op when no row matches. -/
def update_user_answer (rows : List DbUserAnswer) (paper_id user_id : String)
    (answer_data : AnswerData) : List DbUserAnswer :=
  match rows with
  | [] => []
  | r :: rs =>
      if r.paper_id == paper_id && r.user_id == user_id then
        apply_update r answer_data :: rs
      else
        r :: update_user_answer rs paper_id user_id answer_data

end UserAnswerDao

/-! ## Service layer (`src/service/shared_paper_service.py`) -/

/-- The dict returned by `SharedPaperService.get_paper_by_id` (lines
136-144 / 172-180): the answer-hidden paper view. -/
structure PaperView where
  paper_id : String
  access_code : String
  questions : List QuestionForFrontend
  total_count : Nat
  created_at : String
  documents : List String
  document_count : Nat
  deriving Repr, DecidableEq

/-- The dict returned by `submit_answers` (lines 282-286): the receipt
carries no score. -/
structure Receipt where
  paper_id : String
  user_id : String
  submitted_at : String
  deriving Repr, DecidableEq

namespace SharedPaperService

/-- `SharedPaperService.get_paper_by_id` (`shared_paper_service.py` lines
118-184).  Returns the view (or `none`) and the possibly re-seeded state.
The cache-hit branch (lines 130-144) performs no status check; the
durable branch (lines 146-180) rejects non-active papers and empty
question lists, then re-seeds both the paper cache and the access-code
mapping with the full (unhidden) questions. -/
def get_paper_by_id (s : St) (paper_id : String) : Option PaperView × St :=
  match s.cachePapers.lookup paper_id with
  | some cached_data =>
      let frontend_questions := hide_correct_answers cached_data.questions
      (some { paper_id := cached_data.paper_id
              access_code := cached_data.access_code
              questions := frontend_questions
              total_count := frontend_questions.length
              created_at := cached_data.created_at
              documents := cached_data.documents
              document_count := cached_data.document_count }, s)
  | none =>
      match PaperDao.get_paper_by_id s.dbPapers paper_id with
      | none => (none, s)
      | some paper =>
          if paper.status ≠ "active" then (none, s)
          else
            match PaperDao.get_paper_questions s.dbPapers paper_id with
            | none => (none, s)
            | some questions =>
                if questions.isEmpty then (none, s)
                else
                  let frontend_questions := hide_correct_answers questions
                  let cache_data : CachePaper :=
                    { paper_id := paper.paper_id
                      questions := questions
                      total_count := paper.total_count
                      access_code := paper.access_code
                      user_id := paper.user_id
                      created_at := paper.created_at
                      documents := []
                      document_count := 0 }
                  (some { paper_id := paper.paper_id
                          access_code := paper.access_code
                          questions := frontend_questions
                          total_count := frontend_questions.length
                          created_at := cache_data.created_at
                          documents := cache_data.documents
                          document_count := cache_data.document_count },
                   { s with
                     cachePapers := cacheSet s.cachePapers paper_id cache_data
                     cacheCodes := cacheSet s.cacheCodes paper.access_code paper_id })

/-- `SharedPaperService.get_paper_by_access_code` (lines 186-211): cached
mapping first, then the durable lookup with its status filter, both
chaining into `get_paper_by_id`. -/
def get_paper_by_access_code (s : St) (access_code : String) : Option PaperView × St :=
  match s.cacheCodes.lookup access_code with
  | some paper_id => get_paper_by_id s paper_id
  | none =>
      match PaperDao.get_paper_by_access_code s.dbPapers access_code with
      | none => (none, s)
      | some paper =>
          if paper.status ≠ "active" then (none, s)
          else get_paper_by_id s paper.paper_id

/-- The question-resolution step of `submit_answers` (lines 230-242):
cache first; on a cache miss both a missing paper and an empty or
unparsable `questions` column raise `未找到试题`; a cached paper with an
empty question list raises `试题内容为空`. -/
def resolve_questions (s : St) (paper_id : String) : Except String (List Question) :=
  match s.cachePapers.lookup paper_id with
  | none =>
      match PaperDao.get_paper_questions s.dbPapers paper_id with
      | none => .error ("未找到试题 " ++ paper_id)
      | some questions =>
          if questions.isEmpty then .error ("未找到试题 " ++ paper_id)
          else .ok questions
  | some cached_data =>
      if cached_data.questions.isEmpty then .error "试题内容为空"
      else .ok cached_data.questions

/-- The pure front half of `submit_answers` (lines 230-262): resolve the
questions, build the analysis tasks, run the analysis, and assemble
`answer_data`.  A `none` analysis outcome (total failure of
`analyze_paper_answers`) makes `result.get('total_score', 0.0)` raise
`AttributeError` on Python `None`, which the enclosing handler logs and
re-raises. -/
def submit_answer_data (s : St) (ai_out : Option AiResults)
    (paper_id user_id : String) (answers : List AnswerItem) :
    Except String AnswerData :=
  match resolve_questions s paper_id with
  | .error e => .error e
  | .ok questions =>
      match build_analysis_tasks_from_cache questions answers with
      | .error e => .error e
      | .ok analysis_tasks =>
          match analyze_paper_answers ai_out analysis_tasks with
          | none => .error "AttributeError: NoneType has no attribute get"
          | some result =>
              .ok { paper_id := paper_id
                    user_id := user_id
                    answers := answers
                    score := result.total_score
                    correct_count := result.correct_count
                    total_count := result.total_count
                    analysis_results := result.analysis_results
                    overall_feedback := result.overall_feedback }

/-- `SharedPaperService.submit_answers` (lines 213-292).  `now` is the
`datetime.now()` used for the cached copy and the receipt; `db_now` is
the durable store's insertion-time server default.  All raising paths
precede every store write, so an error leaves both tiers untouched. -/
def submit_answers (s : St) (ai_out : Option AiResults) (now db_now : String)
    (paper_id user_id : String) (answers : List AnswerItem) :
    Except String (Receipt × St) :=
  match submit_answer_data s ai_out paper_id user_id answers with
  | .error e => .error e
  | .ok answer_data =>
      let dbAnswers' :=
        match UserAnswerDao.get_user_answer s.dbAnswers paper_id user_id with
        | some _ => UserAnswerDao.update_user_answer s.dbAnswers paper_id user_id answer_data
        | none => UserAnswerDao.create_user_answer s.dbAnswers db_now answer_data
      let cacheAnswers' := cacheSet s.cacheAnswers (answer_cache_key paper_id user_id)
        { data := answer_data, submitted_at := now }
      .ok ({ paper_id := paper_id, user_id := user_id, submitted_at := now },
           { s with dbAnswers := dbAnswers', cacheAnswers := cacheAnswers' })

end SharedPaperService

/-! ## Shared lemmas -/

/-- Reduce `calculate_question_score` on a multiple-choice task to its
multiple-choice branch. -/
theorem calculate_question_score_multiple (task : AnalysisTask)
    (htype : task.question_type = "multiple_choice" ∨ task.question_type = "多选题") :
    calculate_question_score task =
      { is_correct :=
          (if (multi_user_options task.user_answer \ multi_correct_options task.options).card > 0
             then (false, (0 : ℚ))
           else if (multi_correct_options task.options \ multi_user_options task.user_answer).card = 0
               ∧ (multi_user_options task.user_answer).card = (multi_correct_options task.options).card
             then (true, base_score)
           else if (multi_user_options task.user_answer ∩ multi_correct_options task.options).card > 0
             then (true, (5 : ℚ))
           else (false, (0 : ℚ))).1
        score :=
          (if (multi_user_options task.user_answer \ multi_correct_options task.options).card > 0
             then (false, (0 : ℚ))
           else if (multi_correct_options task.options \ multi_user_options task.user_answer).card = 0
               ∧ (multi_user_options task.user_answer).card = (multi_correct_options task.options).card
             then (true, base_score)
           else if (multi_user_options task.user_answer ∩ multi_correct_options task.options).card > 0
             then (true, (5 : ℚ))
           else (false, (0 : ℚ))).2
        correct_answer := .l (py_sorted (correct_option_ids task.options).dedup)
        explanation := "正确答案包含选项：" ++
          String.intercalate ", " (py_sorted (correct_option_ids task.options).dedup)
        chinese_type := type_mapping_get task.question_type } := by
  obtain h | h := htype <;>
    · unfold calculate_question_score
      rw [if_neg (by rw [h]; decide), if_pos (by rw [h]; decide)]

/-! ## Claims -/

/-- C1: multiple-choice scoring.  With `U` the normalized user set and
`C` the correct set: any wrong id gives 0/incorrect; `U = C` gives
10/correct; a non-empty strict subset gives 5/correct; empty
intersection (apart from the `U = C = ∅` case, which the second rule
already covers) gives 0/incorrect. -/
theorem C1_multiple_choice_scoring (task : AnalysisTask)
    (U C : Finset String) (r : ScoreInfo)
    (htype : task.question_type = "multiple_choice" ∨ task.question_type = "多选题")
    (hU : U = multi_user_options task.user_answer)
    (hC : C = multi_correct_options task.options)
    (hr : r = calculate_question_score task) :
    (¬ U ⊆ C → r.score = 0 ∧ r.is_correct = false)
    ∧ (U = C → r.score = 10 ∧ r.is_correct = true)
    ∧ (U ⊂ C → U.Nonempty → r.score = 5 ∧ r.is_correct = true)
    ∧ (U ∩ C = ∅ → U ≠ C → r.score = 0 ∧ r.is_correct = false) := by
  subst hU hC
  rw [calculate_question_score_multiple task htype] at hr
  set U := multi_user_options task.user_answer with hUdef
  set C := multi_correct_options task.options with hCdef
  refine ⟨?_, ?_, ?_, ?_⟩
  · intro hns
    have hpos : (U \ C).card > 0 := Finset.card_pos.mpr (Finset.sdiff_nonempty.mpr hns)
    rw [hr, if_pos hpos]
    exact ⟨rfl, rfl⟩
  · intro he
    have h1 : ¬ (U \ C).card > 0 := by
      rw [he, Finset.sdiff_self, Finset.card_empty]; omega
    have h2 : (C \ U).card = 0 ∧ U.card = C.card := by
      rw [he, Finset.sdiff_self, Finset.card_empty]; exact ⟨rfl, rfl⟩
    rw [hr, if_neg h1, if_pos h2]
    exact ⟨by norm_num [base_score], rfl⟩
  · intro hss hne
    have hsub : U ⊆ C := hss.subset
    have h1 : ¬ (U \ C).card > 0 := by
      rw [Finset.sdiff_eq_empty_iff_subset.mpr hsub, Finset.card_empty]; omega
    have h2 : ¬ ((C \ U).card = 0 ∧ U.card = C.card) := by
      rintro ⟨-, hcard⟩
      exact (Finset.ssubset_iff_subset_ne.mp hss).2
        (Finset.eq_of_subset_of_card_le hsub (le_of_eq hcard.symm))
    have h3 : (U ∩ C).card > 0 := by
      rw [Finset.inter_eq_left.mpr hsub]
      exact Finset.card_pos.mpr hne
    rw [hr, if_neg h1, if_neg h2, if_pos h3]
    exact ⟨by norm_num, rfl⟩
  · intro hint hne
    by_cases hsub : U ⊆ C
    · have hUempty : U = ∅ := by
        rw [← Finset.inter_eq_left.mpr hsub, hint]
      have h1 : ¬ (U \ C).card > 0 := by
        rw [Finset.sdiff_eq_empty_iff_subset.mpr hsub, Finset.card_empty]; omega
      have hCne : C.Nonempty := by
        rcases Finset.eq_empty_or_nonempty C with hC0 | hC0
        · exact absurd (hUempty.trans hC0.symm) hne
        · exact hC0
      have h2 : ¬ ((C \ U).card = 0 ∧ U.card = C.card) := by
        rintro ⟨hc, -⟩
        rw [hUempty, Finset.sdiff_empty] at hc
        exact (Finset.card_pos.mpr hCne).ne' hc
      have h3 : ¬ (U ∩ C).card > 0 := by
        rw [hint, Finset.card_empty]; omega
      rw [hr, if_neg h1, if_neg h2, if_neg h3]
      exact ⟨rfl, rfl⟩
    · have hpos : (U \ C).card > 0 := Finset.card_pos.mpr (Finset.sdiff_nonempty.mpr hsub)
      rw [hr, if_pos hpos]
      exact ⟨rfl, rfl⟩

/-- Concrete multiple-choice task for the C1 witness: correct set
`{A, C}`, user answer the strict subset `["A"]`. -/
def c1_task : AnalysisTask :=
  { question_id := "2", question_type := "multiple_choice", question_text := "q2",
    user_answer := .list ["A"],
    options := [{ id := "A", text := "a", is_correct := true, explanation := "" },
                { id := "B", text := "b", is_correct := false, explanation := "" },
                { id := "C", text := "c", is_correct := true, explanation := "" }] }

/-- Witness for C1: the strict-subset rule at a concrete input. -/
theorem C1_multiple_choice_scoring_witness :
    (calculate_question_score c1_task).score = 5
    ∧ (calculate_question_score c1_task).is_correct = true :=
  (C1_multiple_choice_scoring c1_task
      (multi_user_options c1_task.user_answer)
      (multi_correct_options c1_task.options)
      (calculate_question_score c1_task)
      (Or.inl rfl) rfl rfl rfl).2.2.1 (by decide) (by decide)

/-- Reduce `calculate_question_score` on a single-choice task to its
single-choice branch. -/
theorem calculate_question_score_single (task : AnalysisTask)
    (htype : task.question_type = "single_choice" ∨ task.question_type = "单选题") :
    calculate_question_score task =
      match task.options.find? (fun o => o.id == single_user_answer task.user_answer) with
      | some opt =>
          { is_correct := opt.is_correct
            score := if opt.is_correct then base_score else 0
            correct_answer := .s ((correct_option_ids task.options).headD "")
            explanation := opt.explanation
            chinese_type := type_mapping_get task.question_type }
      | none =>
          { is_correct := false
            score := 0
            correct_answer := .s ((correct_option_ids task.options).headD "")
            explanation := "答案格式错误"
            chinese_type := type_mapping_get task.question_type } := by
  unfold calculate_question_score
  rw [if_pos htype]

/-- In a list of options with pairwise distinct ids, `find?` on the id of
a member returns exactly that member. -/
theorem find_option_by_id (l : List QOption) (o : QOption)
    (hnd : (l.map QOption.id).Nodup) (hmem : o ∈ l) :
    l.find? (fun x => x.id == o.id) = some o := by
  induction l with
  | nil => cases hmem
  | cons a t ih =>
      rw [List.map_cons, List.nodup_cons] at hnd
      rcases List.mem_cons.mp hmem with rfl | hmem'
      · rw [List.find?_cons_of_pos _ (by simp)]
      · by_cases hid : a.id = o.id
        · exact absurd (hid ▸ List.mem_map_of_mem QOption.id hmem') hnd.1
        · rw [List.find?_cons_of_neg _ (by simpa using hid)]
          exact ih hnd.2 hmem'

/-- C5: single-choice scoring.  With `chosen` the normalized user answer
(first element of a list answer, stripped string form otherwise) and the
option ids pairwise distinct: choosing the option flagged correct yields
10/correct; choosing an existing option not flagged correct yields
0/incorrect; choosing an id that names no option yields 0/incorrect with
the format-error explanation; and the reported correct answer is the id
of the first option flagged correct, or empty when none is. -/
theorem C5_single_choice_scoring (task : AnalysisTask) (r : ScoreInfo) (chosen : String)
    (htype : task.question_type = "single_choice" ∨ task.question_type = "单选题")
    (hnd : (task.options.map QOption.id).Nodup)
    (hchosen : chosen = single_user_answer task.user_answer)
    (hr : r = calculate_question_score task) :
    (∀ opt ∈ task.options, opt.id = chosen → opt.is_correct = true →
        r.score = 10 ∧ r.is_correct = true)
    ∧ (∀ opt ∈ task.options, opt.id = chosen → opt.is_correct = false →
        r.score = 0 ∧ r.is_correct = false)
    ∧ ((∀ opt ∈ task.options, opt.id ≠ chosen) →
        r.score = 0 ∧ r.is_correct = false ∧ r.explanation = "答案格式错误")
    ∧ r.correct_answer = .s ((correct_option_ids task.options).headD "") := by
  subst hchosen
  rw [calculate_question_score_single task htype] at hr
  refine ⟨?_, ?_, ?_, ?_⟩
  · intro opt hmem hid hc
    rw [← hid, find_option_by_id task.options opt hnd hmem] at hr
    rw [hr]
    exact ⟨by norm_num [hc, base_score], hc⟩
  · intro opt hmem hid hc
    rw [← hid, find_option_by_id task.options opt hnd hmem] at hr
    rw [hr]
    exact ⟨by norm_num [hc], hc⟩
  · intro habsent
    rw [List.find?_eq_none.mpr (fun x hx => by simpa using habsent x hx)] at hr
    rw [hr]
    exact ⟨rfl, rfl, rfl⟩
  · rcases hfind : task.options.find? (fun o => o.id == single_user_answer task.user_answer)
      with - | opt <;> rw [hfind] at hr <;> rw [hr]

/-- Concrete single-choice task for the C5 witness: options `A` (wrong)
and `B` (correct), user answer `["B"]`. -/
def c5_task : AnalysisTask :=
  { question_id := "1", question_type := "single_choice", question_text := "q",
    user_answer := .list ["B"],
    options := [{ id := "A", text := "a", is_correct := false, explanation := "ea" },
                { id := "B", text := "b", is_correct := true, explanation := "eb" }] }

/-- Witness for C5: the correct-option rule at a concrete input. -/
theorem C5_single_choice_scoring_witness :
    (calculate_question_score c5_task).score = 10
    ∧ (calculate_question_score c5_task).is_correct = true :=
  (C5_single_choice_scoring c5_task (calculate_question_score c5_task) "B"
      (Or.inl rfl) (by decide) rfl rfl).1
    { id := "B", text := "b", is_correct := true, explanation := "eb" }
    (by decide) rfl rfl

/-- The spec's end-to-end example paper: a single-choice question with
correct option `B`, answered `B`, and a multiple-choice question with
correct options `{A, C}`, answered `{A}`. -/
def c4_tasks : List AnalysisTask :=
  [{ question_id := "1", question_type := "single_choice", question_text := "q1",
     user_answer := .list ["B"],
     options := [{ id := "A", text := "a", is_correct := false, explanation := "" },
                 { id := "B", text := "b", is_correct := true, explanation := "" }] },
   { question_id := "2", question_type := "multiple_choice", question_text := "q2",
     user_answer := .list ["A"],
     options := [{ id := "A", text := "a", is_correct := true, explanation := "" },
                 { id := "B", text := "b", is_correct := false, explanation := "" },
                 { id := "C", text := "c", is_correct := true, explanation := "" }] }]

/-- C4: `overall_feedback` is computed from the raw sum of per-question
scores against absolute thresholds in descending order, with exactly five
possible bands; the spec's two-question example scores 10 + 5 = 15 with
both questions counted correct and lands in the lowest band. -/
theorem C4_overall_feedback_banding :
    (∀ (ai_results : AiResults) (analysis_tasks : List AnalysisTask),
        (process_ai_analysis_results ai_results analysis_tasks).overall_feedback =
          overall_feedback_of
            ((analysis_tasks.map (fun t => (calculate_question_score t).score)).sum)
        ∧ (process_ai_analysis_results ai_results analysis_tasks).total_score =
            (analysis_tasks.map (fun t => (calculate_question_score t).score)).sum)
    ∧ (∀ t : ℚ, 90 ≤ t → overall_feedback_of t = "专业功底扎实,细节把控近乎完美!")
    ∧ (∀ t : ℚ, 80 ≤ t → t < 90 → overall_feedback_of t = "专业基础良好,对知识点掌握较为全面!")
    ∧ (∀ t : ℚ, 70 ≤ t → t < 80 → overall_feedback_of t = "基本掌握相关知识,仍有提升空间!")
    ∧ (∀ t : ℚ, 60 ≤ t → t < 70 → overall_feedback_of t = "部分知识点掌握,需要加强学习!")
    ∧ (∀ t : ℚ, t < 60 → overall_feedback_of t = "需要系统复习,建议重点关注错误题目!")
    ∧ (∀ t : ℚ, overall_feedback_of t ∈
        ["专业功底扎实,细节把控近乎完美!", "专业基础良好,对知识点掌握较为全面!",
         "基本掌握相关知识,仍有提升空间!", "部分知识点掌握,需要加强学习!",
         "需要系统复习,建议重点关注错误题目!"])
    ∧ ((process_ai_analysis_results ⟨[]⟩ c4_tasks).total_score = 15
        ∧ (process_ai_analysis_results ⟨[]⟩ c4_tasks).correct_count = 2
        ∧ (process_ai_analysis_results ⟨[]⟩ c4_tasks).total_count = 2
        ∧ (process_ai_analysis_results ⟨[]⟩ c4_tasks).overall_feedback =
            "需要系统复习,建议重点关注错误题目!") := by
  have hsum : ((c4_tasks.map (fun t => (calculate_question_score t).score)).sum) = 15 := by
    have h1 : (calculate_question_score (c4_tasks.get ⟨0, by decide⟩)).score = 10 := by decide
    have h2 : (calculate_question_score (c4_tasks.get ⟨1, by decide⟩)).score = 5 := by decide
    show (calculate_question_score (c4_tasks.get ⟨0, by decide⟩)).score
        + ((calculate_question_score (c4_tasks.get ⟨1, by decide⟩)).score + 0) = 15
    rw [h1, h2]; norm_num
  refine ⟨fun a l => ⟨rfl, rfl⟩, ?_, ?_, ?_, ?_, ?_, ?_, ?_, ?_, ?_, ?_⟩
  · intro t h
    unfold overall_feedback_of
    rw [if_pos (show t ≥ 90 from h)]
  · intro t h h'
    unfold overall_feedback_of
    rw [if_neg (show ¬ t ≥ 90 by exact not_le.mpr h'), if_pos (show t ≥ 80 from h)]
  · intro t h h'
    unfold overall_feedback_of
    rw [if_neg (show ¬ t ≥ 90 by exact not_le.mpr (by linarith)),
      if_neg (show ¬ t ≥ 80 by exact not_le.mpr h'), if_pos (show t ≥ 70 from h)]
  · intro t h h'
    unfold overall_feedback_of
    rw [if_neg (show ¬ t ≥ 90 by exact not_le.mpr (by linarith)),
      if_neg (show ¬ t ≥ 80 by exact not_le.mpr (by linarith)),
      if_neg (show ¬ t ≥ 70 by exact not_le.mpr h'), if_pos (show t ≥ 60 from h)]
  · intro t h
    unfold overall_feedback_of
    rw [if_neg (show ¬ t ≥ 90 by exact not_le.mpr (by linarith)),
      if_neg (show ¬ t ≥ 80 by exact not_le.mpr (by linarith)),
      if_neg (show ¬ t ≥ 70 by exact not_le.mpr (by linarith)),
      if_neg (show ¬ t ≥ 60 by exact not_le.mpr h)]
  · intro t
    unfold overall_feedback_of
    repeat' split
    all_goals simp
  · show ((c4_tasks.map (fun t => (calculate_question_score t).score)).sum) = 15
    exact hsum
  · decide
  · decide
  · show overall_feedback_of ((c4_tasks.map (fun t => (calculate_question_score t).score)).sum)
       = "需要系统复习,建议重点关注错误题目!"
    rw [hsum]
    norm_num [overall_feedback_of]

/-- Witness for C4: the top and bottom bands at concrete totals. -/
theorem C4_overall_feedback_banding_witness :
    overall_feedback_of 95 = "专业功底扎实,细节把控近乎完美!"
    ∧ overall_feedback_of 15 = "需要系统复习,建议重点关注错误题目!" :=
  ⟨C4_overall_feedback_banding.2.1 95 (by norm_num),
   C4_overall_feedback_banding.2.2.2.2.2.1 15 (by norm_num)⟩

/-- `Char.isUpper` characterized on code points. -/
theorem char_isUpper_iff (c : Char) : c.isUpper = true ↔ 65 ≤ c.toNat ∧ c.toNat ≤ 90 := by
  unfold Char.isUpper
  simp only [Bool.and_eq_true, decide_eq_true_eq]
  exact Iff.rfl

/-- `Char.isDigit` characterized on code points. -/
theorem char_isDigit_iff (c : Char) : c.isDigit = true ↔ 48 ≤ c.toNat ∧ c.toNat ≤ 57 := by
  unfold Char.isDigit
  simp only [Bool.and_eq_true, decide_eq_true_eq]
  exact Iff.rfl

/-- C9 (amended): `validate_access_code` accepts exactly the codes of
length 4 to 10 whose characters are ASCII uppercase letters or digits —
the full 36-symbol alphabet, not the restricted generation alphabet, so
the visually ambiguous characters `0`, `O`, `I`, `1` are accepted. -/
theorem C9_validate_access_code_format (code : String) :
    validate_access_code code = true ↔
      (4 ≤ code.length ∧ code.length ≤ 10 ∧
        ∀ c ∈ code.toList, (65 ≤ c.toNat ∧ c.toNat ≤ 90) ∨ (48 ≤ c.toNat ∧ c.toNat ≤ 57)) := by
  unfold validate_access_code
  by_cases h0 : code = ""
  · rw [if_pos h0, h0]
    simp
  · rw [if_neg h0]
    by_cases hlen : code.length < 4 ∨ code.length > 10
    · rw [if_pos hlen]
      simp only [Bool.false_eq_true, false_iff]
      rintro ⟨h4, h10, -⟩
      rcases hlen with h | h <;> omega
    · rw [if_neg hlen]
      push_neg at hlen
      rw [List.all_eq_true]
      constructor
      · intro h
        refine ⟨hlen.1, hlen.2, fun c hc => ?_⟩
        have h' : c.isUpper = true ∨ c.isDigit = true := by simpa using h c hc
        rcases h' with hu | hd
        · exact Or.inl ((char_isUpper_iff c).mp hu)
        · exact Or.inr ((char_isDigit_iff c).mp hd)
      · rintro ⟨-, -, hall⟩ c hc
        have h' : c.isUpper = true ∨ c.isDigit = true := by
          rcases hall c hc with hu | hd
          · exact Or.inl ((char_isUpper_iff c).mpr hu)
          · exact Or.inr ((char_isDigit_iff c).mpr hd)
        simpa using h'

/-- Counterexample for C9 as stated: `AB01` contains `0` and `1`, which
are outside the restricted generation alphabet, yet
`validate_access_code` accepts it. -/
theorem C9_validate_access_code_counterexample :
    validate_access_code "AB01" = true
    ∧ "AB01".toList.all (fun c => access_code_chars.contains c) = false := by
  decide

/-- Witness for C9: the amended characterization applied at `ABCD`. -/
theorem C9_validate_access_code_format_witness :
    validate_access_code "ABCD" = true :=
  (C9_validate_access_code_format "ABCD").mpr (by decide)

/-- Zero out the two hidden fields of an option, keeping `id` and
`text`. -/
def scrub_option (o : QOption) : QOption :=
  { o with is_correct := false, explanation := "" }

/-- Scrub every option of a question. -/
def scrub_question (q : Question) : Question :=
  { q with options := q.options.map scrub_option }

/-- Scrub the stored questions of a cached paper. -/
def scrub_cache_paper (c : CachePaper) : CachePaper :=
  { c with questions := c.questions.map scrub_question }

/-- Scrub the stored questions of a durable paper row. -/
def scrub_db_paper (p : DbPaper) : DbPaper :=
  { p with questions := p.questions.map scrub_question }

/-- Scrub every `is_correct`/`explanation` value stored in either tier:
two states with the same scrubbing differ at most in those fields. -/
def scrub_state (s : St) : St :=
  { s with
    cachePapers := s.cachePapers.map (fun kv => (kv.1, scrub_cache_paper kv.2))
    dbPapers := s.dbPapers.map scrub_db_paper }

/-- `hide_correct_answers` never reads `is_correct`/`explanation`. -/
theorem hide_correct_answers_scrub (qs : List Question) :
    hide_correct_answers (qs.map scrub_question) = hide_correct_answers qs := by
  unfold hide_correct_answers
  rw [List.map_map]
  refine List.map_congr_left fun q hq => ?_
  show _ = _
  simp only [Function.comp, scrub_question, List.map_map]
  rfl

theorem scrub_cache_paper_questions (c : CachePaper) :
    (scrub_cache_paper c).questions = c.questions.map scrub_question := rfl

theorem scrub_db_paper_questions (p : DbPaper) :
    (scrub_db_paper p).questions = p.questions.map scrub_question := rfl

theorem scrub_db_paper_status (p : DbPaper) : (scrub_db_paper p).status = p.status := rfl

/-- `List.lookup` commutes with mapping over the stored values. -/
theorem lookup_map_value {α : Type} (f : α → α) (l : List (String × α)) (k : String) :
    (l.map (fun kv => (kv.1, f kv.2))).lookup k = (l.lookup k).map f := by
  induction l with
  | nil => rfl
  | cons kv t ih =>
      by_cases h : k == kv.1
      · simp [List.lookup, h]
      · simp [List.lookup, h, ih]

/-- Looking up a durable paper commutes with scrubbing. -/
theorem dao_get_paper_scrub (l : List DbPaper) (pid : String) :
    PaperDao.get_paper_by_id (l.map scrub_db_paper) pid
      = (PaperDao.get_paper_by_id l pid).map scrub_db_paper := by
  unfold PaperDao.get_paper_by_id
  rw [List.find?_map]
  rfl

/-- Looking up a durable paper by access code commutes with scrubbing. -/
theorem dao_get_paper_code_scrub (l : List DbPaper) (code : String) :
    PaperDao.get_paper_by_access_code (l.map scrub_db_paper) code
      = (PaperDao.get_paper_by_access_code l code).map scrub_db_paper := by
  unfold PaperDao.get_paper_by_access_code
  rw [List.find?_map]
  rfl

/-- The view returned by `get_paper_by_id` does not depend on the stored
`is_correct`/`explanation` values. -/
theorem get_paper_by_id_scrub (s : St) (pid : String) :
    (SharedPaperService.get_paper_by_id (scrub_state s) pid).1
      = (SharedPaperService.get_paper_by_id s pid).1 := by
  have h1 : (scrub_state s).cachePapers.lookup pid
      = (s.cachePapers.lookup pid).map scrub_cache_paper := lookup_map_value _ _ _
  have h2 : PaperDao.get_paper_by_id (scrub_state s).dbPapers pid
      = (PaperDao.get_paper_by_id s.dbPapers pid).map scrub_db_paper := dao_get_paper_scrub _ _
  have h3 : PaperDao.get_paper_questions (scrub_state s).dbPapers pid
      = (PaperDao.get_paper_questions s.dbPapers pid).map (fun qs => qs.map scrub_question) := by
    unfold PaperDao.get_paper_questions
    rw [h2]
    cases PaperDao.get_paper_by_id s.dbPapers pid <;> rfl
  unfold SharedPaperService.get_paper_by_id
  cases hc : s.cachePapers.lookup pid with
  | some c =>
      have hcs : (scrub_state s).cachePapers.lookup pid = some (scrub_cache_paper c) := by
        rw [h1, hc]; rfl
      rw [hcs]
      simp only [scrub_cache_paper, hide_correct_answers_scrub]
  | none =>
      have hcs : (scrub_state s).cachePapers.lookup pid = none := by rw [h1, hc]; rfl
      rw [hcs]
      cases hp : PaperDao.get_paper_by_id s.dbPapers pid with
      | none =>
          have hps : PaperDao.get_paper_by_id (scrub_state s).dbPapers pid = none := by
            rw [h2, hp]; rfl
          rw [hps]
      | some p =>
          have hps : PaperDao.get_paper_by_id (scrub_state s).dbPapers pid
              = some (scrub_db_paper p) := by rw [h2, hp]; rfl
          rw [hps]
          simp only [scrub_db_paper_status]
          by_cases hst : p.status ≠ "active"
          · rw [if_pos hst, if_pos hst]
          · rw [if_neg hst, if_neg hst]
            cases hq : PaperDao.get_paper_questions s.dbPapers pid with
            | none =>
                have hqs : PaperDao.get_paper_questions (scrub_state s).dbPapers pid = none := by
                  rw [h3, hq]; rfl
                rw [hqs]
            | some qs =>
                have hqs : PaperDao.get_paper_questions (scrub_state s).dbPapers pid
                    = some (qs.map scrub_question) := by rw [h3, hq]; rfl
                rw [hqs]
                have hemp : (qs.map scrub_question).isEmpty = qs.isEmpty := by
                  cases qs <;> rfl
                simp only [hemp]
                by_cases he : qs.isEmpty
                · rw [if_pos he, if_pos he]
                · rw [if_neg he, if_neg he]
                  simp only [hide_correct_answers_scrub, scrub_db_paper]

/-- The view returned by `get_paper_by_access_code` does not depend on
the stored `is_correct`/`explanation` values. -/
theorem get_paper_by_access_code_scrub (s : St) (code : String) :
    (SharedPaperService.get_paper_by_access_code (scrub_state s) code).1
      = (SharedPaperService.get_paper_by_access_code s code).1 := by
  have h2 : PaperDao.get_paper_by_access_code (scrub_state s).dbPapers code
      = (PaperDao.get_paper_by_access_code s.dbPapers code).map scrub_db_paper :=
    dao_get_paper_code_scrub _ _
  unfold SharedPaperService.get_paper_by_access_code
  have hcodes : (scrub_state s).cacheCodes = s.cacheCodes := rfl
  rw [hcodes]
  cases hm : s.cacheCodes.lookup code with
  | some pid => exact get_paper_by_id_scrub s pid
  | none =>
      cases hp : PaperDao.get_paper_by_access_code s.dbPapers code with
      | none =>
          have hps : PaperDao.get_paper_by_access_code (scrub_state s).dbPapers code = none := by
            rw [h2, hp]; rfl
          rw [hps]
      | some p =>
          have hps : PaperDao.get_paper_by_access_code (scrub_state s).dbPapers code
              = some (scrub_db_paper p) := by rw [h2, hp]; rfl
          rw [hps]
          simp only [scrub_db_paper_status]
          by_cases hst : p.status ≠ "active"
          · rw [if_pos hst, if_pos hst]
          · rw [if_neg hst, if_neg hst]
            exact get_paper_by_id_scrub s p.paper_id

/-- C3: on every read path of `get_paper` — cache hit and the
durable-store fallback that re-seeds the cache, by paper id or by access
code — the returned view is independent of the stored `is_correct` and
`explanation` values: two states that agree after scrubbing those fields
(and may differ arbitrarily in them) produce identical views.  Together
with the result type (`QuestionOptionForFrontend` carries only `id` and
`text`), this is the answer-hiding guarantee. -/
theorem C3_get_paper_independent_of_answers (s s' : St) (key : String)
    (h : scrub_state s = scrub_state s') :
    (SharedPaperService.get_paper_by_id s key).1
      = (SharedPaperService.get_paper_by_id s' key).1
    ∧ (SharedPaperService.get_paper_by_access_code s key).1
      = (SharedPaperService.get_paper_by_access_code s' key).1 := by
  constructor
  · rw [← get_paper_by_id_scrub s key, h, get_paper_by_id_scrub s' key]
  · rw [← get_paper_by_access_code_scrub s key, h, get_paper_by_access_code_scrub s' key]

/-- A one-question cached paper whose option `A` is marked correct with a
rationale. -/
def c3_state_a : St :=
  { cachePapers := [("P1",
      { paper_id := "P1"
        questions := [{ question_id := "1", question_type := "single_choice",
                        question_text := "q",
                        options := [{ id := "A", text := "a", is_correct := true,
                                      explanation := "secret" }] }]
        total_count := 1, access_code := "CODE23", user_id := none, created_at := "t0",
        documents := [], document_count := 0 })]
    cacheCodes := [("CODE23", "P1")]
    cacheAnswers := []
    dbPapers := []
    dbAnswers := [] }

/-- The same state with the ground truth flipped and the rationale
removed. -/
def c3_state_b : St :=
  { cachePapers := [("P1",
      { paper_id := "P1"
        questions := [{ question_id := "1", question_type := "single_choice",
                        question_text := "q",
                        options := [{ id := "A", text := "a", is_correct := false,
                                      explanation := "" }] }]
        total_count := 1, access_code := "CODE23", user_id := none, created_at := "t0",
        documents := [], document_count := 0 })]
    cacheCodes := [("CODE23", "P1")]
    cacheAnswers := []
    dbPapers := []
    dbAnswers := [] }

/-- Witness for C3: flipping `is_correct`/`explanation` in the store does
not change either read path's view. -/
theorem C3_get_paper_independent_of_answers_witness :
    (SharedPaperService.get_paper_by_id c3_state_a "P1").1
      = (SharedPaperService.get_paper_by_id c3_state_b "P1").1
    ∧ (SharedPaperService.get_paper_by_access_code c3_state_a "P1").1
      = (SharedPaperService.get_paper_by_access_code c3_state_b "P1").1 :=
  C3_get_paper_independent_of_answers c3_state_a c3_state_b "P1" (by decide)

/-- C6 (amended): the non-active filter applies only to durable-store
fallback reads.  When the paper (respectively the access-code mapping) is
not in the cache tier and the durable row's status is not `active`,
`get_paper` returns `None`; a paper present in the cache tier is served
without any status check (see the counterexample). -/
theorem C6_inactive_paper_not_served_from_store (s : St) :
    (∀ (pid : String) (p : DbPaper),
        s.cachePapers.lookup pid = none →
        PaperDao.get_paper_by_id s.dbPapers pid = some p →
        p.status ≠ "active" →
        (SharedPaperService.get_paper_by_id s pid).1 = none)
    ∧ (∀ (code : String) (p : DbPaper),
        s.cacheCodes.lookup code = none →
        PaperDao.get_paper_by_access_code s.dbPapers code = some p →
        p.status ≠ "active" →
        (SharedPaperService.get_paper_by_access_code s code).1 = none) := by
  constructor
  · intro pid p hc hp hst
    unfold SharedPaperService.get_paper_by_id
    rw [hc, hp]
    simp only []
    rw [if_pos hst]
  · intro code p hm hp hst
    unfold SharedPaperService.get_paper_by_access_code
    rw [hm, hp]
    simp only []
    rw [if_pos hst]

/-- A state whose cache still holds paper `P1` although its durable row
is `inactive`. -/
def c6_state : St :=
  { cachePapers := [("P1",
      { paper_id := "P1"
        questions := [{ question_id := "1", question_type := "single_choice",
                        question_text := "q",
                        options := [{ id := "A", text := "a", is_correct := true,
                                      explanation := "" }] }]
        total_count := 1, access_code := "CODE23", user_id := none, created_at := "t0",
        documents := [], document_count := 0 })]
    cacheCodes := [("CODE23", "P1")]
    cacheAnswers := []
    dbPapers := [{ paper_id := "P1"
                   questions := [{ question_id := "1", question_type := "single_choice",
                                   question_text := "q",
                                   options := [{ id := "A", text := "a", is_correct := true,
                                                 explanation := "" }] }]
                   total_count := 1, created_at := "t0", status := "inactive",
                   access_code := "CODE23", user_id := none }]
    dbAnswers := [] }

/-- Counterexample for C6 as stated: paper `P1` is `inactive` in the
durable store, yet both read paths serve it because it is still present
in the cache tier. -/
theorem C6_inactive_paper_counterexample :
    (PaperDao.get_paper_by_id c6_state.dbPapers "P1").map (fun p => p.status)
      = some "inactive"
    ∧ (SharedPaperService.get_paper_by_id c6_state "P1").1.isSome = true
    ∧ (SharedPaperService.get_paper_by_access_code c6_state "CODE23").1.isSome = true := by
  decide

/-- A state with an inactive paper absent from the cache tier. -/
def c6_store_only_state : St :=
  { cachePapers := []
    cacheCodes := []
    cacheAnswers := []
    dbPapers := c6_state.dbPapers
    dbAnswers := [] }

/-- Witness for C6 (amended): with the cache empty, the inactive paper is
refused on both read paths. -/
theorem C6_inactive_paper_not_served_from_store_witness :
    (SharedPaperService.get_paper_by_id c6_store_only_state "P1").1 = none
    ∧ (SharedPaperService.get_paper_by_access_code c6_store_only_state "CODE23").1 = none :=
  ⟨(C6_inactive_paper_not_served_from_store c6_store_only_state).1 "P1"
      (c6_state.dbPapers.headD
        { paper_id := "", questions := [], total_count := 0, created_at := "",
          status := "", access_code := "", user_id := none })
      rfl rfl (by decide),
   (C6_inactive_paper_not_served_from_store c6_store_only_state).2 "CODE23"
      (c6_state.dbPapers.headD
        { paper_id := "", questions := [], total_count := 0, created_at := "",
          status := "", access_code := "", user_id := none })
      rfl rfl (by decide)⟩

/-- C7 (amended): `submit_answers` fails — before any write to either
tier, so no submission record is created — when the paper is absent from
the cache tier and the durable store has no questions for it (missing
paper, or empty/unparsable `questions` column).  The paper's `status` is
never consulted, so a submission for an existing inactive paper succeeds
(see the counterexample). -/
theorem C7_submit_missing_paper_fails (s : St) (ai_out : Option AiResults)
    (now db_now pid uid : String) (answers : List AnswerItem)
    (hc : s.cachePapers.lookup pid = none)
    (hq : PaperDao.get_paper_questions s.dbPapers pid = none
        ∨ PaperDao.get_paper_questions s.dbPapers pid = some []) :
    SharedPaperService.submit_answers s ai_out now db_now pid uid answers
      = .error ("未找到试题 " ++ pid) := by
  have hres : SharedPaperService.resolve_questions s pid = .error ("未找到试题 " ++ pid) := by
    unfold SharedPaperService.resolve_questions
    rw [hc]
    rcases hq with h | h <;> rw [h]
    rfl
  unfold SharedPaperService.submit_answers SharedPaperService.submit_answer_data
  rw [hres]

/-- A state whose only paper is `inactive`, present in the durable store
only, with one single-choice question. -/
def c7_state : St :=
  { cachePapers := []
    cacheCodes := []
    cacheAnswers := []
    dbPapers := [{ paper_id := "P2"
                   questions := [{ question_id := "1", question_type := "single_choice",
                                   question_text := "q",
                                   options := [{ id := "A", text := "a", is_correct := true,
                                                 explanation := "" }] }]
                   total_count := 1, created_at := "t0", status := "inactive",
                   access_code := "CODE24", user_id := none }]
    dbAnswers := [] }

/-- The answers submitted against the inactive paper `P2`. -/
def c7_answers : List AnswerItem := [{ question_id := "1", user_answer := .str "A" }]

/-- The successful outcome of submitting against the inactive paper. -/
def c7_outcome : Receipt × St :=
  match SharedPaperService.submit_answers c7_state (some ⟨[]⟩) "t1" "d1" "P2" "U" c7_answers with
  | .ok p => p
  | .error _ => ({ paper_id := "", user_id := "", submitted_at := "" }, c7_state)

/-- Counterexample for C7 as stated: the paper exists but is `inactive`,
yet `submit_answers` succeeds and a submission record is created in both
tiers. -/
theorem C7_submit_inactive_paper_counterexample :
    (PaperDao.get_paper_by_id c7_state.dbPapers "P2").map (fun p => p.status)
      = some "inactive"
    ∧ SharedPaperService.submit_answers c7_state (some ⟨[]⟩) "t1" "d1" "P2" "U" c7_answers
        = .ok c7_outcome
    ∧ (c7_outcome.2.dbAnswers.filter
        (fun r => r.paper_id == "P2" && r.user_id == "U")).length = 1
    ∧ ((c7_outcome.2.cacheAnswers.lookup (answer_cache_key "P2" "U")).isSome) = true := by
  refine ⟨by decide, rfl, by decide, by decide⟩

/-- Witness for C7 (amended): submitting against an absent paper fails
with the not-found error. -/
theorem C7_submit_missing_paper_fails_witness :
    SharedPaperService.submit_answers c7_state (some ⟨[]⟩) "t1" "d1" "P9" "U" c7_answers
      = .error ("未找到试题 " ++ "P9") :=
  C7_submit_missing_paper_fails c7_state (some ⟨[]⟩) "t1" "d1" "P9" "U" c7_answers rfl
    (Or.inl rfl)

/-- A healthy state for C2: paper `P1` cached with one single-choice
question; no prior submissions. -/
def c2_state : St :=
  { cachePapers := [("P1",
      { paper_id := "P1"
        questions := [{ question_id := "1", question_type := "single_choice",
                        question_text := "q",
                        options := [{ id := "A", text := "a", is_correct := true,
                                      explanation := "" }] }]
        total_count := 1, access_code := "CODE23", user_id := none, created_at := "t0",
        documents := [], document_count := 0 })]
    cacheCodes := [("CODE23", "P1")]
    cacheAnswers := []
    dbPapers := []
    dbAnswers := [] }

/-- The answers submitted in the C2 scenario. -/
def c2_answers : List AnswerItem := [{ question_id := "1", user_answer := .str "A" }]

/-- C2: contrary to the claim, a total failure of the explanation
generator aborts `submit_answers`.  `analyze_paper_answers` swallows the
exception and implicitly returns `None` (its fallback comment is followed
by no code), `submit_answers` then crashes on `result.get('total_score')`
and re-raises, and no record is persisted to either tier — while the very
same submission succeeds when the generator call succeeds, showing the
abort is caused by the generator failure alone. -/
theorem C2_ai_failure_aborts_submit :
    analyze_paper_answers none
        [{ question_id := "1", question_type := "single_choice", question_text := "q",
           user_answer := .str "A",
           options := [{ id := "A", text := "a", is_correct := true, explanation := "" }] }]
      = none
    ∧ SharedPaperService.submit_answers c2_state none "t1" "d1" "P1" "U" c2_answers
        = .error "AttributeError: NoneType has no attribute get"
    ∧ (SharedPaperService.submit_answers c2_state (some ⟨[]⟩) "t1" "d1" "P1" "U"
        c2_answers).isOk = true := by
  refine ⟨rfl, rfl, by decide⟩

/-- The durable rows holding submissions for one `(paper_id, user_id)`
key. -/
def rows_for (rows : List DbUserAnswer) (pid uid : String) : List DbUserAnswer :=
  rows.filter (fun r => r.paper_id == pid && r.user_id == uid)

theorem get_user_answer_eq_head (rows : List DbUserAnswer) (pid uid : String) :
    UserAnswerDao.get_user_answer rows pid uid = (rows_for rows pid uid).head? := by
  unfold UserAnswerDao.get_user_answer rows_for
  induction rows with
  | nil => rfl
  | cons r rs ih =>
      rw [List.find?_cons, List.filter_cons]
      cases hb : (r.paper_id == pid && r.user_id == uid) with
      | true => rfl
      | false => exact ih

theorem rows_for_create (rows : List DbUserAnswer) (db_now : String) (d : AnswerData)
    (pid uid : String) (hp : d.paper_id = pid) (hu : d.user_id = uid) :
    rows_for (UserAnswerDao.create_user_answer rows db_now d) pid uid
      = rows_for rows pid uid ++
        [{ id := rows.length + 1
           paper_id := d.paper_id
           user_id := d.user_id
           answers := if d.answers.isEmpty then none else some d.answers
           score := some d.score
           correct_count := some d.correct_count
           total_count := some d.total_count
           analysis_results := if d.analysis_results.isEmpty then none
             else some d.analysis_results
           overall_feedback := some d.overall_feedback
           submitted_at := db_now }] := by
  unfold UserAnswerDao.create_user_answer rows_for
  rw [List.filter_append]
  congr 1
  simp [hp, hu]

theorem rows_for_update (rows : List DbUserAnswer) (pid uid : String) (d : AnswerData)
    (row0 : DbUserAnswer) (h : rows_for rows pid uid = [row0]) :
    rows_for (UserAnswerDao.update_user_answer rows pid uid d) pid uid
      = [UserAnswerDao.apply_update row0 d] := by
  induction rows with
  | nil => simp [rows_for] at h
  | cons r rs ih =>
      unfold UserAnswerDao.update_user_answer
      unfold rows_for at h ⊢
      rw [List.filter_cons] at h
      by_cases hk : (r.paper_id == pid && r.user_id == uid) = true
      · rw [if_pos hk] at h
        rw [if_pos hk]
        obtain ⟨rfl, hrest⟩ := List.cons_eq_cons.mp h
        rw [List.filter_cons,
          if_pos (show ((UserAnswerDao.apply_update r d).paper_id == pid
            && (UserAnswerDao.apply_update r d).user_id == uid) = true from hk),
          hrest]
      · rw [if_neg hk] at h
        rw [if_neg hk, List.filter_cons, if_neg hk]
        exact ih h

theorem update_mem_of_not_key (rows : List DbUserAnswer) (pid uid : String)
    (d : AnswerData) (r : DbUserAnswer)
    (hr : r ∈ UserAnswerDao.update_user_answer rows pid uid d)
    (hne : ¬(r.paper_id = pid ∧ r.user_id = uid)) : r ∈ rows := by
  induction rows with
  | nil => simp [UserAnswerDao.update_user_answer] at hr
  | cons a rs ih =>
      unfold UserAnswerDao.update_user_answer at hr
      by_cases hk : (a.paper_id == pid && a.user_id == uid) = true
      · rw [if_pos hk] at hr
        have hand : a.paper_id = pid ∧ a.user_id = uid := by simpa using hk
        rcases List.mem_cons.mp hr with rfl | hmem
        · exact absurd ⟨hand.1, hand.2⟩ hne
        · exact List.mem_cons_of_mem a hmem
      · rw [if_neg hk] at hr
        rcases List.mem_cons.mp hr with rfl | hmem
        · exact List.mem_cons_self _ _
        · exact List.mem_cons_of_mem a (ih hmem)

theorem cacheSet_lookup {α : Type} (l : List (String × α)) (k : String) (v : α) :
    (cacheSet l k v).lookup k = some v := by
  simp [cacheSet, List.lookup]

/-- Invert a successful `submit_answers`: the computed `answer_data`, the
durable write (update when a row exists, insert otherwise), the cache
write with its fresh timestamp, and the receipt. -/
theorem submit_answers_inversion (s : St) (ai_out : Option AiResults)
    (now db_now pid uid : String) (answers : List AnswerItem) (out : Receipt × St)
    (h : SharedPaperService.submit_answers s ai_out now db_now pid uid answers = .ok out) :
    ∃ d : AnswerData,
      SharedPaperService.submit_answer_data s ai_out pid uid answers = .ok d
      ∧ d.paper_id = pid ∧ d.user_id = uid ∧ d.answers = answers
      ∧ out.2.dbAnswers =
          (match UserAnswerDao.get_user_answer s.dbAnswers pid uid with
           | some _ => UserAnswerDao.update_user_answer s.dbAnswers pid uid d
           | none => UserAnswerDao.create_user_answer s.dbAnswers db_now d)
      ∧ out.2.cacheAnswers = cacheSet s.cacheAnswers (answer_cache_key pid uid)
          { data := d, submitted_at := now }
      ∧ out.2.cachePapers = s.cachePapers ∧ out.2.dbPapers = s.dbPapers
      ∧ out.1 = { paper_id := pid, user_id := uid, submitted_at := now } := by
  unfold SharedPaperService.submit_answers at h
  cases hd : SharedPaperService.submit_answer_data s ai_out pid uid answers with
  | error e => rw [hd] at h; simp at h
  | ok d =>
      rw [hd] at h
      simp only [] at h
      have hfields : d.paper_id = pid ∧ d.user_id = uid ∧ d.answers = answers := by
        unfold SharedPaperService.submit_answer_data at hd
        cases hq : SharedPaperService.resolve_questions s pid with
        | error e => rw [hq] at hd; simp at hd
        | ok qs =>
            rw [hq] at hd
            simp only [] at hd
            cases ht : build_analysis_tasks_from_cache qs answers with
            | error e => rw [ht] at hd; simp at hd
            | ok tasks =>
                rw [ht] at hd
                simp only [] at hd
                cases ha : analyze_paper_answers ai_out tasks with
                | none => rw [ha] at hd; simp at hd
                | some result =>
                    rw [ha] at hd
                    simp only [] at hd
                    injection hd with h'
                    rw [← h']
                    exact ⟨rfl, rfl, rfl⟩
      injection h with h'
      exact ⟨d, rfl, hfields.1, hfields.2.1, hfields.2.2,
        by rw [← h'], by rw [← h'], by rw [← h'], by rw [← h'], by rw [← h']⟩

/-- C8: with no prior durable record for `(pid, uid)`, two successive
successful submits leave exactly one durable record for that key, whose
columns reflect the second call's answers and scoring results. -/
theorem C8_resubmission_leaves_one_record (s1 : St) (ai1 ai2 : Option AiResults)
    (now1 db1 now2 db2 pid uid : String) (ans1 ans2 : List AnswerItem)
    (out1 out2 : Receipt × St)
    (h0 : rows_for s1.dbAnswers pid uid = [])
    (h1 : SharedPaperService.submit_answers s1 ai1 now1 db1 pid uid ans1 = .ok out1)
    (h2 : SharedPaperService.submit_answers out1.2 ai2 now2 db2 pid uid ans2 = .ok out2) :
    ∃ (d2 : AnswerData) (row : DbUserAnswer),
      SharedPaperService.submit_answer_data out1.2 ai2 pid uid ans2 = .ok d2
      ∧ d2.answers = ans2
      ∧ rows_for out2.2.dbAnswers pid uid = [row]
      ∧ row.answers = some d2.answers
      ∧ row.score = some d2.score
      ∧ row.correct_count = some d2.correct_count
      ∧ row.total_count = some d2.total_count
      ∧ row.analysis_results = some d2.analysis_results
      ∧ row.overall_feedback = some d2.overall_feedback := by
  obtain ⟨d1, hd1, hp1, hu1, ha1, hdb1, hca1, hcp1, hdp1, hr1⟩ :=
    submit_answers_inversion _ _ _ _ _ _ _ _ h1
  obtain ⟨d2, hd2, hp2, hu2, ha2, hdb2, hca2, hcp2, hdp2, hr2⟩ :=
    submit_answers_inversion _ _ _ _ _ _ _ _ h2
  have hget1 : UserAnswerDao.get_user_answer s1.dbAnswers pid uid = none := by
    rw [get_user_answer_eq_head, h0]; rfl
  rw [hget1] at hdb1
  have hrow1 : rows_for out1.2.dbAnswers pid uid =
      [{ id := s1.dbAnswers.length + 1
         paper_id := d1.paper_id
         user_id := d1.user_id
         answers := if d1.answers.isEmpty then none else some d1.answers
         score := some d1.score
         correct_count := some d1.correct_count
         total_count := some d1.total_count
         analysis_results := if d1.analysis_results.isEmpty then none
           else some d1.analysis_results
         overall_feedback := some d1.overall_feedback
         submitted_at := db1 }] := by
    rw [hdb1, rows_for_create s1.dbAnswers db1 d1 pid uid hp1 hu1, h0]
    rfl
  have hget2 : UserAnswerDao.get_user_answer out1.2.dbAnswers pid uid
      = some ((rows_for out1.2.dbAnswers pid uid).headD
        { id := 0, paper_id := "", user_id := "", answers := none, score := none,
          correct_count := none, total_count := none, analysis_results := none,
          overall_feedback := none, submitted_at := "" }) := by
    rw [get_user_answer_eq_head, hrow1]
    rfl
  rw [hget2] at hdb2
  refine ⟨d2, UserAnswerDao.apply_update
    ((rows_for out1.2.dbAnswers pid uid).headD
        { id := 0, paper_id := "", user_id := "", answers := none, score := none,
          correct_count := none, total_count := none, analysis_results := none,
          overall_feedback := none, submitted_at := "" }) d2,
    hd2, ha2, ?_, rfl, rfl, rfl, rfl, rfl, rfl⟩
  rw [hdb2]
  exact rows_for_update out1.2.dbAnswers pid uid d2 _ (by rw [hrow1]; rfl)

/-- C10: on re-submission for an existing `(pid, uid)` record, the
durable update rewrites only the `answers`, `score`, `correct_count`,
`total_count`, `analysis_results` and `overall_feedback` columns — the
surviving row keeps the first submission's `id`, key and `submitted_at`
(the `{ row0 with ... }` form states exactly this frame) — rows for other
keys are untouched, and only the cached copy carries the fresh
`submitted_at` of this call. -/
theorem C10_resubmission_preserves_submitted_at (s1 : St) (ai_out : Option AiResults)
    (now db_now pid uid : String) (answers : List AnswerItem)
    (out : Receipt × St) (row0 : DbUserAnswer)
    (h0 : rows_for s1.dbAnswers pid uid = [row0])
    (h1 : SharedPaperService.submit_answers s1 ai_out now db_now pid uid answers = .ok out) :
    ∃ d : AnswerData,
      SharedPaperService.submit_answer_data s1 ai_out pid uid answers = .ok d
      ∧ out.2.dbAnswers = UserAnswerDao.update_user_answer s1.dbAnswers pid uid d
      ∧ rows_for out.2.dbAnswers pid uid =
          [{ row0 with
             answers := some d.answers
             score := some d.score
             correct_count := some d.correct_count
             total_count := some d.total_count
             analysis_results := some d.analysis_results
             overall_feedback := some d.overall_feedback }]
      ∧ (∀ r ∈ out.2.dbAnswers, ¬(r.paper_id = pid ∧ r.user_id = uid) → r ∈ s1.dbAnswers)
      ∧ out.2.cacheAnswers.lookup (answer_cache_key pid uid)
          = some { data := d, submitted_at := now } := by
  obtain ⟨d, hd, hp, hu, ha, hdb, hca, hcp, hdp, hr⟩ :=
    submit_answers_inversion _ _ _ _ _ _ _ _ h1
  have hget : UserAnswerDao.get_user_answer s1.dbAnswers pid uid = some row0 := by
    rw [get_user_answer_eq_head, h0]; rfl
  rw [hget] at hdb
  refine ⟨d, hd, hdb, ?_, ?_, ?_⟩
  · rw [hdb]
    exact rows_for_update s1.dbAnswers pid uid d row0 h0
  · intro r hmem hne
    rw [hdb] at hmem
    exact update_mem_of_not_key s1.dbAnswers pid uid d r hmem hne
  · rw [hca]
    exact cacheSet_lookup _ _ _

/-- Fresh state for the C8 witness: paper `P1` cached, no submissions. -/
def c8_state : St :=
  { cachePapers := [("P1",
      { paper_id := "P1"
        questions := [{ question_id := "1", question_type := "single_choice",
                        question_text := "q",
                        options := [{ id := "A", text := "a", is_correct := true,
                                      explanation := "" }] }]
        total_count := 1, access_code := "CODE23", user_id := none, created_at := "t0",
        documents := [], document_count := 0 })]
    cacheCodes := [("CODE23", "P1")]
    cacheAnswers := []
    dbPapers := []
    dbAnswers := [] }

/-- First and second answer sets of the C8 witness scenario. -/
def c8_ans1 : List AnswerItem := [{ question_id := "1", user_answer := .str "A" }]

def c8_ans2 : List AnswerItem := [{ question_id := "1", user_answer := .str "B" }]

def c8_out1 : Receipt × St :=
  match SharedPaperService.submit_answers c8_state (some ⟨[]⟩) "t1" "d1" "P1" "U" c8_ans1 with
  | .ok p => p
  | .error _ => ({ paper_id := "", user_id := "", submitted_at := "" }, c8_state)

def c8_out2 : Receipt × St :=
  match SharedPaperService.submit_answers c8_out1.2 (some ⟨[]⟩) "t2" "d2" "P1" "U" c8_ans2 with
  | .ok p => p
  | .error _ => ({ paper_id := "", user_id := "", submitted_at := "" }, c8_state)

/-- Witness for C8: two successive concrete submits leave one record for
the key, reflecting the second call. -/
theorem C8_resubmission_leaves_one_record_witness :
    ∃ (d2 : AnswerData) (row : DbUserAnswer),
      SharedPaperService.submit_answer_data c8_out1.2 (some ⟨[]⟩) "P1" "U" c8_ans2 = .ok d2
      ∧ d2.answers = c8_ans2
      ∧ rows_for c8_out2.2.dbAnswers "P1" "U" = [row]
      ∧ row.answers = some d2.answers
      ∧ row.score = some d2.score
      ∧ row.correct_count = some d2.correct_count
      ∧ row.total_count = some d2.total_count
      ∧ row.analysis_results = some d2.analysis_results
      ∧ row.overall_feedback = some d2.overall_feedback :=
  C8_resubmission_leaves_one_record c8_state (some ⟨[]⟩) (some ⟨[]⟩)
    "t1" "d1" "t2" "d2" "P1" "U" c8_ans1 c8_ans2 c8_out1 c8_out2 rfl rfl rfl

/-- The pre-existing durable row of the C10 witness scenario, inserted at
`d0`. -/
def c10_row0 : DbUserAnswer :=
  { id := 1, paper_id := "P1", user_id := "U", answers := none, score := none,
    correct_count := none, total_count := none, analysis_results := none,
    overall_feedback := none, submitted_at := "d0" }

/-- State for the C10 witness: paper `P1` cached and one existing durable
submission row. -/
def c10_state : St :=
  { c8_state with dbAnswers := [c10_row0] }

def c10_ans : List AnswerItem := [{ question_id := "1", user_answer := .str "A" }]

def c10_out : Receipt × St :=
  match SharedPaperService.submit_answers c10_state (some ⟨[]⟩) "t9" "d9" "P1" "U" c10_ans with
  | .ok p => p
  | .error _ => ({ paper_id := "", user_id := "", submitted_at := "" }, c10_state)

/-- Witness for C10: a concrete re-submission keeps the durable
`submitted_at` (`d0`) and refreshes only the cached copy (`t9`). -/
theorem C10_resubmission_preserves_submitted_at_witness :
    ∃ d : AnswerData,
      SharedPaperService.submit_answer_data c10_state (some ⟨[]⟩) "P1" "U" c10_ans = .ok d
      ∧ c10_out.2.dbAnswers = UserAnswerDao.update_user_answer c10_state.dbAnswers "P1" "U" d
      ∧ rows_for c10_out.2.dbAnswers "P1" "U" =
          [{ c10_row0 with
             answers := some d.answers
             score := some d.score
             correct_count := some d.correct_count
             total_count := some d.total_count
             analysis_results := some d.analysis_results
             overall_feedback := some d.overall_feedback }]
      ∧ (∀ r ∈ c10_out.2.dbAnswers, ¬(r.paper_id = "P1" ∧ r.user_id = "U")
          → r ∈ c10_state.dbAnswers)
      ∧ c10_out.2.cacheAnswers.lookup (answer_cache_key "P1" "U")
          = some { data := d, submitted_at := "t9" } :=
  C10_resubmission_preserves_submitted_at c10_state (some ⟨[]⟩) "t9" "d9" "P1" "U"
    c10_ans c10_out c10_row0 rfl rfl

end AiTraining
